import Mathlib

/-!
Verification development for the smart-macro-ai nutrition bot.

The embedding models, from the repository's Python sources:
* `src/models.py` — the pydantic `NutritionInfo` model (field presence and
  declared-type validation);
* `src/openai_client.py` — the post-parse part of
  `OpenAIClient.analyze_food_image`: JSON-decode failure handling, the
  `"error" in data` check, pydantic validation, and the outer generic
  exception handler;
* `src/database.py` — the SQLite store: `save_analysis`, `get_user_history`,
  `get_daily_summary`, `get_weekly_stats`, `get_all_time_stats`;
* `src/bot.py` — the `/history` command's clamping of the `days` argument
  and its use of the store's default `limit`.

SQLite `REAL` columns are modelled with exact rationals (`ℚ`); timestamps
with integer epoch seconds, the SQL `DATE(...)` component being the floor
day index.  Where SQLite leaves a result order unspecified (`ORDER BY count
DESC` among equal counts) the query result is modelled as a relation over
all admissible outputs rather than a function.
-/

namespace SmartMacro

/-- Scalar JSON values, as `json.loads` produces them inside an object or
array.  Nested containers never reach any field the code reads, so object
values are restricted to this scalar fragment. -/
inductive JVal
  | jstr (s : String)
  | jnum (q : ℚ)
  | jbool (b : Bool)
  | jnull
  deriving DecidableEq, Repr

/-- Top-level JSON values: `json.loads` can return a dict, a list, or a
scalar.  `none` at the use sites below stands for a raw string on which
`json.loads` raises `JSONDecodeError`. -/
inductive JTop
  | obj (kvs : List (String × JVal))
  | arr (xs : List JVal)
  | scalar (v : JVal)
  deriving DecidableEq, Repr

/-- `JVal.asStr`: the value a pydantic `str` field accepts (a JSON string;
pydantic v2 — pinned by the aiogram 3 dependency — does not coerce numbers
to `str` in lax mode). -/
def JVal.asStr : JVal → Option String
  | .jstr s => some s
  | _ => none

/-- The numeric value of a digit run, most significant first. -/
def digitsVal (ds : List Char) : Nat :=
  ds.foldl (fun n c => 10 * n + (c.toNat - 48)) 0

/-- Nonempty and consisting of decimal digits only. -/
def allDigits (ds : List Char) : Bool :=
  !ds.isEmpty && ds.all (fun c => c.isDigit)

/-- Split a character list at the first occurrence of `c`: the part before
it, and the part after it when `c` occurs at all. -/
def splitAtChar (c : Char) : List Char → List Char × Option (List Char)
  | [] => ([], none)
  | a :: rest =>
    if a == c then ([], some rest)
    else
      let p := splitAtChar c rest
      (a :: p.1, p.2)

/-- An unsigned decimal mantissa: a digit run with at most one decimal
point and at least one digit in total. -/
def parseMantissa (cs : List Char) : Option ℚ :=
  match splitAtChar '.' cs with
  | (intPart, none) =>
      if allDigits intPart then some (digitsVal intPart : ℚ) else none
  | (intPart, some fracPart) =>
      if (intPart.all (fun c => c.isDigit)) && (fracPart.all (fun c => c.isDigit))
          && (!intPart.isEmpty || !fracPart.isEmpty) then
        some ((digitsVal intPart : ℚ) +
          (digitsVal fracPart : ℚ) / (10 : ℚ) ^ fracPart.length)
      else none

/-- An optionally signed digit run (the exponent of a decimal literal). -/
def parseExponent (cs : List Char) : Option Int :=
  match cs with
  | '+' :: rest => if allDigits rest then some (digitsVal rest : Int) else none
  | '-' :: rest => if allDigits rest then some (-(digitsVal rest : Int)) else none
  | _ => if allDigits cs then some (digitsVal cs : Int) else none

/-- Pydantic's lax string-to-`float` coercion (the repo's aiogram 3
dependency pins pydantic v2): surrounding whitespace is stripped, then an
optional sign, a decimal mantissa and an optional `e`/`E` exponent are
accepted and give the literal's value.  The special spellings
`inf`/`infinity`/`nan`, which name no rational (and exist as no JSON
number either), are outside this rational-valued model and are rejected
here; digit underscores, which v2 rejects, are rejected as well. -/
def parseNumStr (s : String) : Option ℚ :=
  let cs := ((s.data.dropWhile (fun c => c.isWhitespace)).reverse.dropWhile
    (fun c => c.isWhitespace)).reverse
  let sgn : Bool × List Char :=
    match cs with
    | '-' :: rest => (true, rest)
    | '+' :: rest => (false, rest)
    | _ => (false, cs)
  let parts := splitAtChar 'e' (sgn.2.map Char.toLower)
  let me : Option ℚ × Option Int :=
    (parseMantissa parts.1,
      match parts.2 with
      | none => some (0 : Int)
      | some ecs => parseExponent ecs)
  match me with
  | (some m, some e) =>
      let v := m * (10 : ℚ) ^ e
      some (if sgn.1 then -v else v)
  | _ => none

/-- `JVal.asNum`: the value a pydantic `float` field accepts in lax mode —
a JSON number (`json.loads` yields Python `int` or `float`, both
accepted), or a numeric string via the lax coercion `parseNumStr`. -/
def JVal.asNum : JVal → Option ℚ
  | .jnum q => some q
  | .jstr s => parseNumStr s
  | _ => none

/-- `NutritionInfo` from `src/models.py`: eight required fields.  The
pydantic model declares only the types (`str` / `float`); it imposes no
range, non-emptiness or enumeration constraint. -/
structure NutritionInfo where
  food_name : String
  calories : ℚ
  protein_g : ℚ
  carbs_g : ℚ
  fats_g : ℚ
  fiber_g : ℚ
  serving_size : String
  confidence : String
  deriving DecidableEq, Repr

/-- `NutritionInfo(**data)` from `src/openai_client.py` line 89: pydantic
validation succeeds iff every one of the eight required keys is present
with a value its declared type accepts under lax coercion (`str` fields
take JSON strings; `float` fields take JSON numbers or numeric strings);
any failure raises `ValidationError` (modelled as `none`).  Extra keys are
ignored. -/
def NutritionInfo.ofJson (kvs : List (String × JVal)) : Option NutritionInfo :=
  match (kvs.lookup "food_name").bind JVal.asStr,
        (kvs.lookup "calories").bind JVal.asNum,
        (kvs.lookup "protein_g").bind JVal.asNum,
        (kvs.lookup "carbs_g").bind JVal.asNum,
        (kvs.lookup "fats_g").bind JVal.asNum,
        (kvs.lookup "fiber_g").bind JVal.asNum,
        (kvs.lookup "serving_size").bind JVal.asStr,
        (kvs.lookup "confidence").bind JVal.asStr with
  | some fn, some cal, some pro, some car, some fat, some fib, some sz, some conf =>
      some ⟨fn, cal, pro, car, fat, fib, sz, conf⟩
  | _, _, _, _, _, _, _, _ => none

/-- The condition the code's validation actually enforces: each required
key present with a value its declared type accepts (including the lax
numeric-string coercion for `float` fields).  Nothing about signs,
emptiness or the confidence enumeration. -/
def requiredOk (kvs : List (String × JVal)) : Bool :=
  ((kvs.lookup "food_name").bind JVal.asStr).isSome &&
  ((kvs.lookup "calories").bind JVal.asNum).isSome &&
  ((kvs.lookup "protein_g").bind JVal.asNum).isSome &&
  ((kvs.lookup "carbs_g").bind JVal.asNum).isSome &&
  ((kvs.lookup "fats_g").bind JVal.asNum).isSome &&
  ((kvs.lookup "fiber_g").bind JVal.asNum).isSome &&
  ((kvs.lookup "serving_size").bind JVal.asStr).isSome &&
  ((kvs.lookup "confidence").bind JVal.asStr).isSome

/-- The four classified failure outcomes of the adapter, one per distinct
return site in `analyze_food_image` (`src/openai_client.py`):
`malformedResponse` = the `json.JSONDecodeError` handler (lines 75-80),
`notFood` = the `"error" in data` branch (lines 83-85) carrying the
service-provided explanation, `schemaViolation` = the `ValidationError`
handler (lines 95-99), `serviceFailure` = the outer `except Exception`
handler (lines 101-105).  The fixed user-facing message strings are
omitted; the kind is the return site. -/
inductive ClassifiedError
  | malformedResponse
  | notFood (explanation : String)
  | schemaViolation
  | serviceFailure
  deriving DecidableEq, Repr

/-- Outcome of `analyze_food_image`: a validated record or a classified
error. -/
inductive AnalyzeResult
  | ok (info : NutritionInfo)
  | err (e : ClassifiedError)
  deriving DecidableEq, Repr

/-- The response-handling part of `analyze_food_image`
(`src/openai_client.py` lines 72-105), as a function of the `json.loads`
result (`none` = decode failure).
* decode failure → the `JSONDecodeError` handler (`malformedResponse`);
* a dict: `"error" in data` is checked FIRST — if present with a string
  value, `ErrorResponse(error=data["error"])` is returned (`notFood`);
  a non-string value makes the `ErrorResponse` construction itself raise,
  which only the outer handler catches (`serviceFailure`); with no
  `"error"` key, pydantic validation decides between `ok` and
  `schemaViolation`;
* a list: `"error" in data` is element membership, then either
  `data["error"]` (list index by string) or `NutritionInfo(**list)` raises
  `TypeError`, caught by the outer handler (`serviceFailure`);
* a scalar: `"error" in data` raises `TypeError` on numbers/booleans/null,
  and on a string either `data["error"]` or `NutritionInfo(**str)` raises
  `TypeError` — all caught by the outer handler (`serviceFailure`). -/
def analyzeContent : Option JTop → AnalyzeResult
  | none => .err .malformedResponse
  | some (.obj kvs) =>
    match kvs.lookup "error" with
    | some (.jstr s) => .err (.notFood s)
    | some _ => .err .serviceFailure
    | none =>
      match NutritionInfo.ofJson kvs with
      | some info => .ok info
      | none => .err .schemaViolation
  | some (.arr _) => .err .serviceFailure
  | some (.scalar _) => .err .serviceFailure

theorem ofJson_isSome_eq (kvs : List (String × JVal)) :
    (NutritionInfo.ofJson kvs).isSome = requiredOk kvs := by
  unfold NutritionInfo.ofJson requiredOk
  cases (kvs.lookup "food_name").bind JVal.asStr <;>
    cases (kvs.lookup "calories").bind JVal.asNum <;>
    cases (kvs.lookup "protein_g").bind JVal.asNum <;>
    cases (kvs.lookup "carbs_g").bind JVal.asNum <;>
    cases (kvs.lookup "fats_g").bind JVal.asNum <;>
    cases (kvs.lookup "fiber_g").bind JVal.asNum <;>
    cases (kvs.lookup "serving_size").bind JVal.asStr <;>
    cases (kvs.lookup "confidence").bind JVal.asStr <;>
    rfl

/-- One row of the `nutrition_history` table (`src/database.py` lines 28-44).
`REAL` columns are exact rationals; `analyzed_at` is epoch seconds. -/
structure Row where
  id : Nat
  user_id : Int
  username : String
  food_name : String
  calories : ℚ
  protein_g : ℚ
  carbs_g : ℚ
  fats_g : ℚ
  fiber_g : ℚ
  serving_size : String
  confidence : String
  analyzed_at : Int
  photo_file_id : String
  deriving DecidableEq, Repr

/-- SQL `DATE(analyzed_at)`: the (floor) day index of an epoch-second
timestamp. -/
def dayOf (t : Int) : Int := Int.fdiv t 86400

/-- The store's visible state: the `AUTOINCREMENT` counter (always above
every id already used) and the table contents. -/
structure DbState where
  nextId : Nat
  rows : List Row
  deriving DecidableEq, Repr

/-- `Database.save_analysis` (`src/database.py` lines 88-109): one `INSERT`
that names neither `id` nor `analyzed_at`, so `id` comes from the
`AUTOINCREMENT` counter and `analyzed_at` from the column default
`CURRENT_TIMESTAMP`, i.e. the server clock `now` at insert time.  The
incoming `NutritionInfo` has no timestamp field at all.  `savedRow` is the
row that `INSERT` writes. -/
def savedRow (rid : Nat) (now uid : Int) (uname : String)
    (info : NutritionInfo) (photo : String) : Row :=
  { id := rid
    user_id := uid
    username := uname
    food_name := info.food_name
    calories := info.calories
    protein_g := info.protein_g
    carbs_g := info.carbs_g
    fats_g := info.fats_g
    fiber_g := info.fiber_g
    serving_size := info.serving_size
    confidence := info.confidence
    analyzed_at := now
    photo_file_id := photo }

/-- The state transition of one `save_analysis` call: a fresh surrogate id
from the counter, the record content from the validated `NutritionInfo`,
the timestamp from the server clock. -/
def save_analysis (st : DbState) (now : Int) (uid : Int) (uname : String)
    (info : NutritionInfo) (photo : String) : DbState :=
  { nextId := st.nextId + 1
    rows := st.rows ++ [savedRow st.nextId now uid uname info photo] }

/-- The `/history` ordering `ORDER BY analyzed_at DESC`: later timestamps
first. -/
def histOrder (a b : Row) : Prop := b.analyzed_at ≤ a.analyzed_at

instance : DecidableRel histOrder := fun a b => Int.decLe b.analyzed_at a.analyzed_at

instance : IsTotal Row histOrder := ⟨fun a b => le_total b.analyzed_at a.analyzed_at⟩

instance : IsTrans Row histOrder := ⟨fun _ _ _ h1 h2 => le_trans h2 h1⟩

/-- `Database.get_user_history` (`src/database.py` lines 115-143):
`WHERE user_id = ? AND analyzed_at >= ?` with cutoff
`utcnow() - timedelta(days=days)`, `ORDER BY analyzed_at DESC`,
`LIMIT ?`. -/
def get_user_history (rows : List Row) (uid : Int) (now : Int) (days : Int)
    (limit : Nat) : List Row :=
  let cutoff : Int := now - days * 86400
  ((rows.filter (fun r => r.user_id == uid && cutoff ≤ r.analyzed_at)).insertionSort
    histOrder).take limit

/-- The `/history` command's argument handling (`src/bot.py` line 181):
`days = max(1, min(days, 30))`. -/
def clampDays (d : Int) : Int := max 1 (min d 30)

/-- `cmd_history` (`src/bot.py` lines 177-186) calls
`get_user_history(user_id, days=days)`, leaving `limit` at its default
of 20. -/
def cmd_history_rows (rows : List Row) (uid : Int) (now : Int) (d : Int) :
    List Row :=
  get_user_history rows uid now (clampDays d) 20

/-- The `WHERE user_id = ? AND DATE(analyzed_at) = ?` filter of
`get_daily_summary`. -/
def matchesDay (uid : Int) (d : Int) (r : Row) : Bool :=
  r.user_id == uid && dayOf r.analyzed_at == d

/-- The row `get_daily_summary` returns (`src/database.py` lines 165-177):
`DATE(analyzed_at)`, `COUNT(*)` and the five macro `SUM`s. -/
structure DailySummary where
  date : Int
  meal_count : Nat
  total_calories : ℚ
  total_protein_g : ℚ
  total_carbs_g : ℚ
  total_fats_g : ℚ
  total_fiber_g : ℚ
  deriving DecidableEq, Repr

/-- `Database.get_daily_summary` (`src/database.py` lines 149-183): the
grouped aggregate over the user's rows with the given date component;
`GROUP BY` over zero rows yields no row, so `fetchone` gives `None`. -/
def get_daily_summary (rows : List Row) (uid : Int) (d : Int) :
    Option DailySummary :=
  let m := rows.filter (matchesDay uid d)
  if m.isEmpty then none
  else some {
    date := d
    meal_count := m.length
    total_calories := (m.map Row.calories).sum
    total_protein_g := (m.map Row.protein_g).sum
    total_carbs_g := (m.map Row.carbs_g).sum
    total_fats_g := (m.map Row.fats_g).sum
    total_fiber_g := (m.map Row.fiber_g).sum }

/-- SQL `AVG` over a nonempty group: sum divided by row count. -/
def sqlAvg (xs : List ℚ) : ℚ := xs.sum / (xs.length : ℚ)

/-- The `WHERE user_id = ? AND DATE(analyzed_at) >= ?` filter of
`get_weekly_stats` (`weekStart` is the Monday's day index). -/
def weeklyRows (rows : List Row) (uid : Int) (weekStart : Int) : List Row :=
  rows.filter (fun r => r.user_id == uid && weekStart ≤ dayOf r.analyzed_at)

/-- The scalar aggregates of `get_weekly_stats`' first query
(`src/database.py` lines 204-217): `COUNT(*)` and the five macro `AVG`s.
(The `MIN`/`MAX` date columns play no part in any claim and are left out;
`most_common_food`, produced by the second query, is modelled separately
as a relation because its tie order is unspecified.) -/
structure WeeklyScalar where
  total_analyses : Nat
  avg_calories : ℚ
  avg_protein : ℚ
  avg_carbs : ℚ
  avg_fats : ℚ
  avg_fiber : ℚ
  deriving DecidableEq, Repr

/-- `Database.get_weekly_stats` (`src/database.py` lines 185-235), scalar
part: aggregates over the user's current-week rows; the function returns
`None` when `total_analyses` is 0 (line 231). -/
def get_weekly_stats (rows : List Row) (uid : Int) (weekStart : Int) :
    Option WeeklyScalar :=
  let m := weeklyRows rows uid weekStart
  if m.isEmpty then none
  else some {
    total_analyses := m.length
    avg_calories := sqlAvg (m.map Row.calories)
    avg_protein := sqlAvg (m.map Row.protein_g)
    avg_carbs := sqlAvg (m.map Row.carbs_g)
    avg_fats := sqlAvg (m.map Row.fats_g)
    avg_fiber := sqlAvg (m.map Row.fiber_g) }

/-- The result of `GROUP BY food_name` + `COUNT(*)`: one `(food_name,
count)` pair per distinct food of the given rows (listed here in first-
occurrence order; consumers quantify over permutations, so this order
carries no weight). -/
def foodCounts (rows : List Row) : List (String × Nat) :=
  ((rows.map Row.food_name).dedup).map
    (fun n => (n, (rows.map Row.food_name).count n))

/-- `ORDER BY count DESC`: counts never increase along the list. -/
def countDescSorted (l : List (String × Nat)) : Prop :=
  l.Pairwise (fun a b => b.2 ≤ a.2)

/-- The admissible results of `SELECT food_name, COUNT(*) ... GROUP BY
food_name ORDER BY count DESC LIMIT k` (`src/database.py` lines 220-227 and
266-273): SQLite guarantees only that the output is (a prefix of) the
grouped counts arranged so counts never increase; the relative order of
equal counts is unspecified, so every such arrangement is admissible. -/
def topFoodsAdmissible (rows : List Row) (k : Nat) (out : List (String × Nat)) : Prop :=
  ∃ l, l.Perm (foodCounts rows) ∧ countDescSorted l ∧ out = l.take k

/-- The admissible values of `stats['most_common_food']` in
`get_weekly_stats` (`src/database.py` lines 220-229): the food name of the
first row of the `LIMIT 1` query, or `None` when that query returns no
row. -/
def mostCommonFoodAdmissible (rows : List Row) (uid : Int) (weekStart : Int)
    (out : Option String) : Prop :=
  ∃ l, l.Perm (foodCounts (weeklyRows rows uid weekStart)) ∧
    countDescSorted l ∧ out = l.head?.map Prod.fst

/-- The scalar aggregates of `get_all_time_stats`' first query
(`src/database.py` lines 251-262): `COUNT(*)`, the `AVG` of calories,
protein, carbs and fats (the query computes no fiber average), the
earliest date and the distinct-date count. -/
structure AllTimeScalar where
  total_analyses : Nat
  avg_calories : ℚ
  avg_protein : ℚ
  avg_carbs : ℚ
  avg_fats : ℚ
  first_analysis : Option Int
  days_tracked : Nat
  deriving DecidableEq, Repr

/-- The `WHERE user_id = ?` filter of `get_all_time_stats`. -/
def userRows (rows : List Row) (uid : Int) : List Row :=
  rows.filter (fun r => r.user_id == uid)

/-- `Database.get_all_time_stats` (`src/database.py` lines 237-281), scalar
part: aggregates over all the user's rows; `None` when `total_analyses` is
0 (line 277).  `top_foods` (the second query, `LIMIT 3`) is modelled by
`topFoodsAdmissible` because its tie order is unspecified. -/
def get_all_time_scalar (rows : List Row) (uid : Int) : Option AllTimeScalar :=
  let m := userRows rows uid
  if m.isEmpty then none
  else some {
    total_analyses := m.length
    avg_calories := sqlAvg (m.map Row.calories)
    avg_protein := sqlAvg (m.map Row.protein_g)
    avg_carbs := sqlAvg (m.map Row.carbs_g)
    avg_fats := sqlAvg (m.map Row.fats_g)
    first_analysis := (m.map (fun r => dayOf r.analyzed_at)).min?
    days_tracked := (m.map (fun r => dayOf r.analyzed_at)).dedup.length }

/-! Concrete sample inputs used by the counterexamples and witnesses. -/

/-- A JSON object with every required field present at its declared type,
but a negative calorie count, an empty food name and a confidence value
outside `{high, medium, low}`. -/
def invalidValuesObj : List (String × JVal) :=
  [("food_name", .jstr ""), ("calories", .jnum (-5)),
   ("protein_g", .jnum 1), ("carbs_g", .jnum 2), ("fats_g", .jnum 3),
   ("fiber_g", .jnum 4), ("serving_size", .jstr "1 plate"),
   ("confidence", .jstr "certain")]

/-- A JSON object carrying both an `error` field and a full set of valid
nutrition fields. -/
def errorWithFieldsObj : List (String × JVal) :=
  [("error", .jstr "not food"),
   ("food_name", .jstr "Apple"), ("calories", .jnum 52),
   ("protein_g", .jnum 1), ("carbs_g", .jnum 14), ("fats_g", .jnum 1),
   ("fiber_g", .jnum 2), ("serving_size", .jstr "1 apple"),
   ("confidence", .jstr "high")]

/-- A JSON object whose `calories` field is the numeric STRING `"52"`
rather than a JSON number — pydantic's lax coercion accepts it. -/
def coercedObj : List (String × JVal) :=
  [("food_name", .jstr "Apple"), ("calories", .jstr "52"),
   ("protein_g", .jnum 1), ("carbs_g", .jnum 14), ("fats_g", .jnum 1),
   ("fiber_g", .jnum 2), ("serving_size", .jstr "1 apple"),
   ("confidence", .jstr "high")]

/-- C2 counterexample: a response whose object carries an empty
`food_name`, a negative `calories` and a `confidence` outside the
enumeration is accepted by `analyze` as a success — no `SchemaViolation`
is produced, refuting the claim that value validity is checked. -/
theorem schema_negative_macro_accepted :
    analyzeContent (some (.obj invalidValuesObj)) =
      .ok ⟨"", -5, 1, 2, 3, 4, "1 plate", "certain"⟩ ∧
    (-5 : ℚ) < 0 ∧
    ("" : String).length = 0 ∧
    ("certain" : String) ∉ (["high", "medium", "low"] : List String) := by
  refine ⟨by decide, by decide, by decide, by decide⟩

/-- C2 (amended): for a parsed object without an `error` field, `analyze`
returns `SchemaViolation` exactly when some required field is missing or
not acceptable to its declared type (`requiredOk` is false), where `str`
fields take JSON strings and `float` fields take JSON numbers or
lax-coerced numeric strings; whenever every required field is acceptable
the record is returned as a success, so non-negativity, non-emptiness and
the confidence enumeration are never checked.  In particular the object
`coercedObj`, whose `calories` is the numeric string `"52"`, is accepted
as a success with `calories = 52`. -/
theorem schema_validation_presence_only (kvs : List (String × JVal))
    (h : kvs.lookup "error" = none) :
    (analyzeContent (some (.obj kvs)) = .err .schemaViolation ↔
      requiredOk kvs = false) ∧
    (∀ info, analyzeContent (some (.obj kvs)) = .ok info →
      requiredOk kvs = true) ∧
    analyzeContent (some (.obj coercedObj)) =
      .ok ⟨"Apple", 52, 1, 14, 1, 2, "1 apple", "high"⟩ := by
  have hcoerced : analyzeContent (some (.obj coercedObj)) =
      .ok ⟨"Apple", 52, 1, 14, 1, 2, "1 apple", "high"⟩ := by
    rw [show analyzeContent (some (.obj coercedObj)) =
      .ok ⟨"Apple", (52 : ℚ) * (10 : ℚ) ^ (0 : Int), 1, 14, 1, 2,
        "1 apple", "high"⟩ from rfl]
    norm_num [NutritionInfo.mk.injEq]
  have hreq := ofJson_isSome_eq kvs
  cases hj : NutritionInfo.ofJson kvs with
  | none =>
    rw [hj] at hreq
    exact ⟨by simp [analyzeContent, h, hj, ← hreq],
           by simp [analyzeContent, h, hj], hcoerced⟩
  | some info =>
    rw [hj] at hreq
    exact ⟨by simp [analyzeContent, h, hj, ← hreq],
           by simp [analyzeContent, h, hj, ← hreq], hcoerced⟩

/-- Witness for `schema_validation_presence_only` at the concrete object
`invalidValuesObj` (which has no `error` key). -/
theorem schema_validation_presence_only_witness :
    (analyzeContent (some (.obj invalidValuesObj)) = .err .schemaViolation ↔
      requiredOk invalidValuesObj = false) ∧
    (∀ info, analyzeContent (some (.obj invalidValuesObj)) = .ok info →
      requiredOk invalidValuesObj = true) ∧
    analyzeContent (some (.obj coercedObj)) =
      .ok ⟨"Apple", 52, 1, 14, 1, 2, "1 apple", "high"⟩ :=
  schema_validation_presence_only invalidValuesObj (by decide)

/-- C3 counterexample: an object containing both an `error` field and a
full set of valid nutrition fields IS classified as `NotFood` (the code
checks `"error" in data` before any validation), refuting the claim that
such an object is not classified `NotFood`. -/
theorem error_with_valid_fields_still_notFood :
    analyzeContent (some (.obj errorWithFieldsObj)) =
      .err (.notFood "not food") ∧
    NutritionInfo.ofJson errorWithFieldsObj =
      some ⟨"Apple", 52, 1, 14, 1, 2, "1 apple", "high"⟩ := by
  refine ⟨by decide, by decide⟩

/-- C3 (amended): for a parsed JSON object, `analyze` returns `NotFood`
carrying explanation `s` exactly when the object's `error` field is the
string `s` — regardless of whether valid nutrition fields are also
present.  (An `error` field with a non-string value instead makes the
`ErrorResponse` construction raise, surfacing as `ServiceFailure`.) -/
theorem notFood_iff_error_string_field (kvs : List (String × JVal))
    (s : String) :
    analyzeContent (some (.obj kvs)) = .err (.notFood s) ↔
      kvs.lookup "error" = some (.jstr s) := by
  cases he : kvs.lookup "error" with
  | none =>
    cases hj : NutritionInfo.ofJson kvs <;> simp [analyzeContent, he, hj]
  | some v =>
    cases v <;> simp [analyzeContent, he]

/-- C4 counterexample: the raw output `42` is parseable as JSON but not as
a JSON object; the code then raises a `TypeError` inside `"error" in data`
which only the outer generic handler catches, so the result is
`ServiceFailure`, not `MalformedResponse`. -/
theorem nonobject_json_not_malformed :
    analyzeContent (some (.scalar (.jnum 42))) = .err .serviceFailure ∧
    ClassifiedError.serviceFailure ≠ ClassifiedError.malformedResponse := by
  refine ⟨by decide, by decide⟩

/-- C4 (amended): a raw output on which JSON decoding fails yields a
`MalformedResponse` classified error and never a nutrition record, and
that kind is distinct from the other three; but an output parseable as a
non-object JSON value (scalar or array) instead surfaces as
`ServiceFailure` through the generic exception handler. -/
theorem malformed_only_for_decode_failure :
    analyzeContent none = .err .malformedResponse ∧
    (∀ info, analyzeContent none ≠ .ok info) ∧
    (∀ v, analyzeContent (some (.scalar v)) = .err .serviceFailure) ∧
    (∀ xs, analyzeContent (some (.arr xs)) = .err .serviceFailure) ∧
    (∀ s, ClassifiedError.malformedResponse ≠ .notFood s) ∧
    ClassifiedError.malformedResponse ≠ .schemaViolation ∧
    ClassifiedError.malformedResponse ≠ .serviceFailure := by
  refine ⟨rfl, ?_, ?_, ?_, ?_, by decide, by decide⟩ <;>
    intro x <;> simp [analyzeContent]

/-- A sample stored row: given id, user, food name, timestamp, calories and
fiber; the remaining fields are fixed innocuous values. -/
def sampleRow (i : Nat) (uid : Int) (fname : String) (t : Int)
    (cal fib : ℚ) : Row :=
  { id := i
    user_id := uid
    username := "u"
    food_name := fname
    calories := cal
    protein_g := 10
    carbs_g := 20
    fats_g := 5
    fiber_g := fib
    serving_size := "1 serving"
    confidence := "high"
    analyzed_at := t
    photo_file_id := "file" }

/-- C5: two consecutive `save_analysis` calls with identical record
content each insert one new row; the two rows get the distinct surrogate
ids `nextId` and `nextId + 1`, and each row's `analyzed_at` is the server
clock at its own insert — for every possible record content, so the
timestamp is never taken from the analyzed input. -/
theorem append_distinct_ids_server_time (st : DbState) (now1 now2 uid : Int)
    (uname : String) (info : NutritionInfo) (photo : String) :
    (save_analysis (save_analysis st now1 uid uname info photo)
        now2 uid uname info photo).rows
      = st.rows ++ [savedRow st.nextId now1 uid uname info photo,
                    savedRow (st.nextId + 1) now2 uid uname info photo] ∧
    (savedRow st.nextId now1 uid uname info photo).id ≠
      (savedRow (st.nextId + 1) now2 uid uname info photo).id ∧
    (∀ info2 : NutritionInfo, ∀ uname2 photo2,
      (savedRow st.nextId now1 uid uname2 info2 photo2).analyzed_at = now1) ∧
    (save_analysis (save_analysis st now1 uid uname info photo)
        now2 uid uname info photo).rows.length = st.rows.length + 2 := by
  refine ⟨by simp [save_analysis], by simp [savedRow], fun _ _ _ => rfl,
    by simp [save_analysis]⟩

/-- Three meals of one user on one day: calories 200, 300, 500; protein 10
each, carbs 20 each, fats 5 each, fiber 1+2+3. -/
def c6rows : List Row :=
  [sampleRow 1 7 "Oats" 3600 200 1, sampleRow 2 7 "Rice" 7200 300 2,
   sampleRow 3 7 "Eggs" 10800 500 3]

/-- C6: `get_daily_summary` returns `none` exactly when zero stored rows
of the user carry the requested date component; with `N ≥ 1` matching rows
it returns `meal_count = N` and, for each of the five macros, the exact
arithmetic sum over those rows.  In particular three rows with calories
200, 300, 500 on one date give `total_calories = 1000` and
`meal_count = 3`. -/
theorem daily_summary_totals (rows : List Row) (uid d : Int) :
    (get_daily_summary rows uid d = none ↔
      rows.filter (matchesDay uid d) = []) ∧
    (∀ s, get_daily_summary rows uid d = some s →
      s.meal_count = (rows.filter (matchesDay uid d)).length ∧
      s.total_calories = ((rows.filter (matchesDay uid d)).map Row.calories).sum ∧
      s.total_protein_g = ((rows.filter (matchesDay uid d)).map Row.protein_g).sum ∧
      s.total_carbs_g = ((rows.filter (matchesDay uid d)).map Row.carbs_g).sum ∧
      s.total_fats_g = ((rows.filter (matchesDay uid d)).map Row.fats_g).sum ∧
      s.total_fiber_g = ((rows.filter (matchesDay uid d)).map Row.fiber_g).sum) ∧
    get_daily_summary c6rows 7 0 = some ⟨0, 3, 1000, 30, 60, 15, 6⟩ := by
  refine ⟨?_, ?_, ?_⟩
  case refine_3 =>
    have h : c6rows.filter (matchesDay 7 0) = c6rows := by decide
    unfold get_daily_summary
    rw [h]
    norm_num [c6rows, sampleRow, DailySummary.mk.injEq]
  · unfold get_daily_summary
    by_cases hm : rows.filter (matchesDay uid d) = [] <;>
      simp [hm, List.isEmpty_iff]
  · intro s hs
    unfold get_daily_summary at hs
    by_cases hm : rows.filter (matchesDay uid d) = []
    · simp [hm, List.isEmpty_iff] at hs
    · rw [if_neg (by simpa [List.isEmpty_iff] using hm)] at hs
      obtain rfl := (Option.some_inj.mp hs).symm
      exact ⟨rfl, rfl, rfl, rfl, rfl, rfl⟩

/-- Two same-day meals and one next-day meal for one user: calories 100,
100, 400 — sum 600 over 3 rows (row mean 200) but 2 distinct days (per-day
average 300). -/
def c7rows : List Row :=
  [sampleRow 1 7 "Oats" 0 100 1, sampleRow 2 7 "Oats" 3600 100 1,
   sampleRow 3 7 "Rice" 86400 400 1]

/-- Modelled from the spec's words "per-day average": the calorie total
divided by the number of distinct days — the reading the claim rules out. -/
def perDayAvgCalories (m : List Row) : ℚ :=
  (m.map Row.calories).sum /
    ((m.map (fun r => dayOf r.analyzed_at)).dedup.length : ℚ)

/-- C7: for a user with at least one current-week row, `get_weekly_stats`
computes every per-macro mean as (sum over matching rows) / (count of
matching rows): each mean times the row count equals the macro sum.  On
the uneven rows `c7rows` (two rows on one day, one on the next) this mean
is 200 while the per-day average is 300, so multiple same-day rows each
count individually and the mean is not a per-day average. -/
theorem weekly_avg_sum_over_count (rows : List Row) (uid weekStart : Int)
    (h : weeklyRows rows uid weekStart ≠ []) :
    (∃ s, get_weekly_stats rows uid weekStart = some s ∧
      s.total_analyses = (weeklyRows rows uid weekStart).length ∧
      s.avg_calories * ((weeklyRows rows uid weekStart).length : ℚ) =
        ((weeklyRows rows uid weekStart).map Row.calories).sum ∧
      s.avg_protein * ((weeklyRows rows uid weekStart).length : ℚ) =
        ((weeklyRows rows uid weekStart).map Row.protein_g).sum ∧
      s.avg_carbs * ((weeklyRows rows uid weekStart).length : ℚ) =
        ((weeklyRows rows uid weekStart).map Row.carbs_g).sum ∧
      s.avg_fats * ((weeklyRows rows uid weekStart).length : ℚ) =
        ((weeklyRows rows uid weekStart).map Row.fats_g).sum ∧
      s.avg_fiber * ((weeklyRows rows uid weekStart).length : ℚ) =
        ((weeklyRows rows uid weekStart).map Row.fiber_g).sum) ∧
    (∃ s7, get_weekly_stats c7rows 7 0 = some s7 ∧ s7.avg_calories = 200) ∧
    perDayAvgCalories (weeklyRows c7rows 7 0) = 300 ∧
    (200 : ℚ) ≠ 300 := by
  have hlen : ((weeklyRows rows uid weekStart).length : ℚ) ≠ 0 := by
    exact_mod_cast fun h0 =>
      h (List.length_eq_zero.mp (by exact_mod_cast h0))
  have hw : weeklyRows c7rows 7 0 = c7rows := by decide
  refine ⟨?_, ?_, ?_, by norm_num⟩
  · unfold get_weekly_stats
    rw [if_neg (by simpa [List.isEmpty_iff] using h)]
    refine ⟨_, rfl, rfl, ?_, ?_, ?_, ?_, ?_⟩ <;>
      · show sqlAvg _ * _ = _
        unfold sqlAvg
        rw [List.length_map]
        exact div_mul_cancel₀ _ hlen
  · unfold get_weekly_stats
    rw [hw]
    rw [if_neg (by decide)]
    refine ⟨_, rfl, ?_⟩
    show sqlAvg (c7rows.map Row.calories) = 200
    norm_num [sqlAvg, c7rows, sampleRow]
  · rw [hw]
    unfold perDayAvgCalories
    rw [show (c7rows.map (fun r => dayOf r.analyzed_at)).dedup.length = 2
      from by decide]
    norm_num [c7rows, sampleRow]

/-- Witness for `weekly_avg_sum_over_count` at the concrete store
`c7rows`. -/
theorem weekly_avg_sum_over_count_witness :
    (∃ s, get_weekly_stats c7rows 7 0 = some s ∧
      s.total_analyses = (weeklyRows c7rows 7 0).length ∧
      s.avg_calories * ((weeklyRows c7rows 7 0).length : ℚ) =
        ((weeklyRows c7rows 7 0).map Row.calories).sum ∧
      s.avg_protein * ((weeklyRows c7rows 7 0).length : ℚ) =
        ((weeklyRows c7rows 7 0).map Row.protein_g).sum ∧
      s.avg_carbs * ((weeklyRows c7rows 7 0).length : ℚ) =
        ((weeklyRows c7rows 7 0).map Row.carbs_g).sum ∧
      s.avg_fats * ((weeklyRows c7rows 7 0).length : ℚ) =
        ((weeklyRows c7rows 7 0).map Row.fats_g).sum ∧
      s.avg_fiber * ((weeklyRows c7rows 7 0).length : ℚ) =
        ((weeklyRows c7rows 7 0).map Row.fiber_g).sum) ∧
    (∃ s7, get_weekly_stats c7rows 7 0 = some s7 ∧ s7.avg_calories = 200) ∧
    perDayAvgCalories (weeklyRows c7rows 7 0) = 300 ∧
    (200 : ℚ) ≠ 300 :=
  weekly_avg_sum_over_count c7rows 7 0 (by decide)

/-- One stored row with fiber 1... -/
def c8rowsA : List Row := [sampleRow 1 7 "Apple" 0 100 1]

/-- ... and the same row with fiber 2: the only difference is `fiber_g`. -/
def c8rowsB : List Row := [sampleRow 1 7 "Apple" 0 100 2]

/-- C8 counterexample: two stores that differ only in their fiber values
produce identical `get_all_time_stats` results, because the all-time query
computes no fiber aggregate at all (`SELECT` lists `AVG(calories)`,
`AVG(protein_g)`, `AVG(carbs_g)`, `AVG(fats_g)` — no `AVG(fiber_g)`), so
the result cannot contain the claimed fiber mean. -/
theorem all_time_fiber_not_reported :
    get_all_time_scalar c8rowsA 7 = get_all_time_scalar c8rowsB 7 ∧
    c8rowsA.map Row.fiber_g ≠ c8rowsB.map Row.fiber_g := by
  refine ⟨rfl, by norm_num [c8rowsA, c8rowsB, sampleRow]⟩

/-- C8 (amended): `get_all_time_stats` returns `none` exactly when the
user has zero stored rows; otherwise it returns the total row count, the
means of calories, protein, carbs and fats (each mean times the row count
equals the macro sum — fiber's mean is not among the results), the
earliest date, the count of distinct dates, and a top-3 food list that is
count-descending, drawn from the user's food counts, of length
`min 3 (number of distinct foods)` (its tie order unspecified). -/
theorem all_time_stats_amended (rows : List Row) (uid : Int) :
    (get_all_time_scalar rows uid = none ↔ userRows rows uid = []) ∧
    (∀ s, get_all_time_scalar rows uid = some s →
      s.total_analyses = (userRows rows uid).length ∧
      s.avg_calories * ((userRows rows uid).length : ℚ) =
        ((userRows rows uid).map Row.calories).sum ∧
      s.avg_protein * ((userRows rows uid).length : ℚ) =
        ((userRows rows uid).map Row.protein_g).sum ∧
      s.avg_carbs * ((userRows rows uid).length : ℚ) =
        ((userRows rows uid).map Row.carbs_g).sum ∧
      s.avg_fats * ((userRows rows uid).length : ℚ) =
        ((userRows rows uid).map Row.fats_g).sum ∧
      s.first_analysis =
        ((userRows rows uid).map (fun r => dayOf r.analyzed_at)).min? ∧
      s.days_tracked =
        ((userRows rows uid).map (fun r => dayOf r.analyzed_at)).dedup.length) ∧
    (∀ out, topFoodsAdmissible (userRows rows uid) 3 out →
      countDescSorted out ∧
      (∀ p ∈ out, p ∈ foodCounts (userRows rows uid)) ∧
      out.length = min 3 (foodCounts (userRows rows uid)).length) := by
  refine ⟨?_, ?_, ?_⟩
  · unfold get_all_time_scalar
    by_cases hm : userRows rows uid = [] <;> simp [hm, List.isEmpty_iff]
  · intro s hs
    by_cases hm : userRows rows uid = []
    · rw [show get_all_time_scalar rows uid = none from by
        unfold get_all_time_scalar; rw [hm]; rfl] at hs
      exact absurd hs (by simp)
    · have hlen : ((userRows rows uid).length : ℚ) ≠ 0 := by
        exact_mod_cast fun h0 =>
          hm (List.length_eq_zero.mp (by exact_mod_cast h0))
      unfold get_all_time_scalar at hs
      rw [if_neg (by simpa [List.isEmpty_iff] using hm)] at hs
      obtain rfl := (Option.some_inj.mp hs).symm
      refine ⟨rfl, ?_, ?_, ?_, ?_, rfl, rfl⟩ <;>
        · show sqlAvg _ * _ = _
          unfold sqlAvg
          rw [List.length_map]
          exact div_mul_cancel₀ _ hlen
  · rintro out ⟨l, hperm, hsort, rfl⟩
    refine ⟨List.Pairwise.sublist (List.take_sublist 3 l) hsort, ?_, ?_⟩
    · intro p hp
      exact hperm.subset ((List.take_sublist 3 l).subset hp)
    · rw [List.length_take, hperm.length_eq]

instance (l : List (String × Nat)) : Decidable (countDescSorted l) := by
  unfold countDescSorted
  exact inferInstance

/-- For a count-descending arrangement of a group list, the head's count
dominates every group. -/
theorem head_count_max {m l : List (String × Nat)} (hperm : l.Perm m)
    (hsort : countDescSorted l) {x : String × Nat} (hx : l.head? = some x) :
    x ∈ m ∧ ∀ p ∈ m, p.2 ≤ x.2 := by
  cases l with
  | nil => simp at hx
  | cons a t =>
    obtain rfl : a = x := by simpa using hx
    have hs := List.pairwise_cons.mp hsort
    refine ⟨hperm.subset (List.mem_cons_self _ _), ?_⟩
    intro p hp
    rcases List.mem_cons.mp (hperm.symm.subset hp) with rfl | hpt
    · exact le_refl _
    · exact hs.1 p hpt

/-- One user's current-week rows holding one "Apple" and one "Banana":
both foods tie at count 1. -/
def c1rows : List Row :=
  [sampleRow 1 7 "Apple" 0 100 1, sampleRow 2 7 "Banana" 3600 100 1]

/-- C1 counterexample: on a store where "Apple" and "Banana" tie at one
occurrence each, BOTH `some "Banana"` and `some "Apple"` are admissible
results of the weekly most-common-food query — the SQL orders only by
count, so the tied outcome depends on SQLite's unspecified row order.
"Apple" is the lexicographically smaller name, yet an admissible execution
returns "Banana": the result is neither the lexicographically smallest
choice nor a deterministic function of the stored rows. -/
theorem most_common_food_tie_nondeterministic :
    mostCommonFoodAdmissible c1rows 7 0 (some "Banana") ∧
    mostCommonFoodAdmissible c1rows 7 0 (some "Apple") ∧
    "Apple".data < "Banana".data ∧
    some ("Banana" : String) ≠ some ("Apple" : String) := by
  refine ⟨⟨[("Banana", 1), ("Apple", 1)], by decide, by decide, rfl⟩,
          ⟨[("Apple", 1), ("Banana", 1)], by decide, by decide, rfl⟩,
          by decide, by decide⟩

/-- C1 (amended): every admissible result of the weekly most-common-food
query names a food of maximal occurrence count among the user's
current-week rows, and the head of every admissible all-time top-3 list
is a group of maximal count — highest count first holds; among equal
counts the choice follows SQLite's unspecified ordering (see the
counterexample), so no lexicographic tie-break and no determinism is
guaranteed. -/
theorem most_common_food_highest_count (rows : List Row)
    (uid weekStart : Int) (name : String) :
    (mostCommonFoodAdmissible rows uid weekStart (some name) →
      ∃ c, (name, c) ∈ foodCounts (weeklyRows rows uid weekStart) ∧
        ∀ p ∈ foodCounts (weeklyRows rows uid weekStart), p.2 ≤ c) ∧
    (∀ out x, topFoodsAdmissible (userRows rows uid) 3 out →
      out.head? = some x →
      x ∈ foodCounts (userRows rows uid) ∧
      ∀ p ∈ foodCounts (userRows rows uid), p.2 ≤ x.2) := by
  constructor
  · rintro ⟨l, hperm, hsort, hout⟩
    cases l with
    | nil => simp at hout
    | cons a t =>
      obtain rfl : name = a.1 := by simpa using hout
      obtain ⟨hmem, hmax⟩ := head_count_max hperm hsort
        (show (a :: t).head? = some a from rfl)
      exact ⟨a.2, by simpa using hmem, hmax⟩
  · rintro out x ⟨l, hperm, hsort, rfl⟩ hx
    cases l with
    | nil => simp at hx
    | cons a t =>
      obtain rfl : a = x := by simpa using hx
      exact head_count_max hperm hsort rfl

/-- A record analyzed 25 hours before `c9now`. -/
def c9old : Row := sampleRow 1 7 "Oats" (1000000 - 25 * 3600) 200 1

/-- A record analyzed 2 hours before `c9now`. -/
def c9new : Row := sampleRow 2 7 "Rice" (1000000 - 2 * 3600) 300 1

/-- The query time for the C9 scenario. -/
def c9now : Int := 1000000

/-- The C9 scenario store: one 25-hour-old and one 2-hour-old record. -/
def c9rows : List Row := [c9old, c9new]

/-- C9: `get_user_history` returns only the requested user's stored rows
whose timestamp is at least `now - days·86400`, in most-recent-first
order; the `/history` command clamp maps every `days` into `[1, 30]` and
is the identity there.  In the concrete scenario (one record 25 hours old,
one 2 hours old, `days = 1`) only the 2-hour-old record is returned. -/
theorem history_window_order (rows : List Row) (uid now days : Int)
    (limit : Nat) :
    (∀ r ∈ get_user_history rows uid now days limit,
      r ∈ rows ∧ r.user_id = uid ∧ now - days * 86400 ≤ r.analyzed_at) ∧
    List.Sorted histOrder (get_user_history rows uid now days limit) ∧
    (∀ d : Int, 1 ≤ d → d ≤ 30 → clampDays d = d) ∧
    (1 ≤ clampDays days ∧ clampDays days ≤ 30) ∧
    get_user_history c9rows 7 c9now 1 20 = [c9new] := by
  refine ⟨?_, ?_, ?_, ⟨le_max_left 1 _, ?_⟩, by decide⟩
  · intro r hr
    simp only [get_user_history] at hr
    have h1 : r ∈ rows.filter
        (fun q => q.user_id == uid &&
          decide (now - days * 86400 ≤ q.analyzed_at)) :=
      (List.perm_insertionSort histOrder _).subset
        ((List.take_sublist limit _).subset hr)
    obtain ⟨hmem, hpred⟩ := List.mem_filter.mp h1
    rw [Bool.and_eq_true] at hpred
    obtain ⟨hb1, hb2⟩ := hpred
    exact ⟨hmem, by simpa using hb1, by simpa using hb2⟩
  · simp only [get_user_history]
    exact List.Pairwise.sublist (List.take_sublist _ _)
      (List.sorted_insertionSort histOrder _)
  · intro d h1 h30
    unfold clampDays
    rw [min_eq_left h30, max_eq_right h1]
  · exact max_le (by norm_num) (min_le_right _ _)

/-- Twenty-one rows of one user, all timestamped within any 30-day
window that ends after their timestamps. -/
def c10rows : List Row :=
  (List.range 21).map (fun i => sampleRow i 7 "Oats" (1000 * (i : Int)) 100 1)

/-- C10: the `/history` command leaves the store's `limit` parameter at
its default of 20, so the frontend history result never exceeds 20
records — here shown for every store, user, time and requested `days`,
and exercised on a store whose 21 rows all fall inside the window yet
only 20 come back. -/
theorem history_limit_twenty (rows : List Row) (uid now d : Int) :
    (cmd_history_rows rows uid now d).length ≤ 20 ∧
    c10rows.length = 21 ∧
    (cmd_history_rows c10rows 7 100000 30).length = 20 := by
  refine ⟨?_, by decide, by decide⟩
  simp only [cmd_history_rows, get_user_history]
  exact List.length_take_le 20 _

end SmartMacro
